import Mathlib

/-!
Verification of the Grievance-Resolver complaint pipeline and the
monitoring/escalation state machine.

This file gives a shallow embedding of the Python sources:
  - `src/agents/classification.py`  (`_classify_with_llm`)
  - `src/agents/sentiment.py`       (`_analyze_sentiment_with_llm`, `_apply_keyword_boosts`)
  - `src/agents/sla_assignment.py`  (`_assign_sla_with_llm`, `process`)
  - `src/agents/escalation.py`      (`_escalate_with_llm`, `process`)
  - `src/agents/monitoring.py`      (`process`, `check_complaint_status`, `_find_stale_complaints`)
  - `src/agents/followup.py`        (`find_stale_complaints`, `process_followup`)
  - `src/workflows/complaint_workflow.py`  (the orchestrator nodes)
  - `src/workflows/monitoring_workflow.py` (the monitoring cycle nodes)
  - `src/models/database.py`        (store operations, modelled as explicit state)

Modelling conventions:
  - Python floats are modelled as `ℚ`; the code only compares, min/max-clamps
    and adds these values, so the rational model is exact for finite values.
  - Timestamps are modelled as rational "hours since epoch"; `datetime.utcnow()`
    becomes an explicit `now : ℚ` parameter, `timedelta(hours=h)` becomes `+ h`.
  - Each external LLM/service interaction is a parameter: either the parsed
    JSON object the code extracts from the response (a record of optional
    fields, mirroring `parsed.get(...)` defaults), or an outcome datatype when
    the claim under study depends on the throw/parse-failure control flow.
  - Store state (Supabase tables) is explicit: a `Store` value threaded
    through the monitoring cycle, and an `Option ComplaintRecord` result for
    the pipeline's single `create_complaint` call.
  - Free-text fields that no claim mentions (record ids, reason strings,
    authority names, notification bodies rendered from timestamps) are
    omitted from the records; every field a claim refers to is embedded.
-/

namespace Grievance

/-- ASCII lowercase of one character; on the ASCII texts this repository
compares, Python's `str.lower()` and this function agree. -/
def charLower (c : Char) : Char :=
  if 65 ≤ c.toNat ∧ c.toNat ≤ 90 then Char.ofNat (c.toNat + 32) else c

/-- Python's `s.lower()` (ASCII fragment). -/
def pyLower (s : String) : String :=
  ⟨s.toList.map charLower⟩

/-- Char-list version of `str.startswith`. -/
def charsStartWith : List Char → List Char → Bool
  | [], _ => true
  | _ :: _, [] => false
  | a :: as, b :: bs => a == b && charsStartWith as bs

/-- Char-list substring test: the needle starts at some position of the
haystack. -/
def charsContain (needle : List Char) : List Char → Bool
  | [] => charsStartWith needle []
  | b :: bs => charsStartWith needle (b :: bs) || charsContain needle bs

/-- Python's substring operator `needle in haystack` on strings. -/
def containsSub (needle haystack : String) : Bool :=
  charsContain needle.toList haystack.toList

/-- Python's `any(kw in s for kw in kws)`. -/
def containsAny (kws : List String) (s : String) : Bool :=
  kws.any (fun kw => containsSub kw s)

/-- The `urgency_map = {"low": 1, "medium": 2, "high": 3, "urgent": 4}` lookup
with default 2, as in `complaint_workflow.py` line 218-219
(`urgency_map.get(state["urgency"], 2)`). -/
def urgencyRank (u : String) : Nat :=
  if u = "low" then 1
  else if u = "medium" then 2
  else if u = "high" then 3
  else if u = "urgent" then 4
  else 2

/-- The total order on escalation levels from `schemas.py` (`EscalationLevel`):
none < level_1 < level_2 < level_3 < level_4.  Strings outside the enum get
rank 0 like "none"; the code never validates the level strings it receives. -/
def levelRank (l : String) : Nat :=
  if l = "level_1" then 1
  else if l = "level_2" then 2
  else if l = "level_3" then 3
  else if l = "level_4" then 4
  else 0

/-! ## Classification agent (`src/agents/classification.py`, `_classify_with_llm`)

The keyword lists are transcribed verbatim from lines 87-109 and 151-242. -/

def fire_keywords : List String :=
  ["fire", "burning", "blaze", "smoke", "flames", "on fire", "caught fire",
   "fire broke out", "fire incident", "building on fire", "house on fire"]

def medical_keywords : List String :=
  ["medical emergency", "heart attack", "stroke", "unconscious", "not breathing",
   "ambulance needed", "ambulance", "emergency medical"]

def accident_keywords : List String :=
  ["accident", "crash", "collision", "injured", "hurt", "bleeding", "trapped",
   "road accident", "car accident"]

def gas_keywords : List String :=
  ["gas leak", "gas smell", "lpg leak", "explosion risk", "gas emergency",
   "gas", "lpg", "cng leak"]

def police_keywords : List String :=
  ["police", "cop", "constable", "officer", "law enforcement", "police station",
   "police help", "police complaint", "file fir", "fir", "first information report",
   "police intervention", "police action", "police report", "police case",
   "police investigation", "police department",
   "robbery", "assault", "attack", "violence", "threat", "crime", "theft",
   "fraud", "stolen", "robbed", "mugging", "burglary", "break-in", "vandalism",
   "harassment", "molestation", "domestic violence", "abuse", "cybercrime",
   "scam", "cheating", "illegal", "criminal", "criminal activity",
   "law violation", "illegal activity",
   "security issue", "safety concern", "unsafe", "dangerous situation",
   "threatening", "intimidation", "extortion", "blackmail", "kidnapping",
   "missing person",
   "traffic violation", "rash driving", "drunk driving", "hit and run",
   "traffic police",
   "legal action", "law and order", "public order", "disturbance", "riot",
   "commotion"]

def electricity_keywords : List String :=
  ["electricity", "power", "meter", "electric", "power cut", "load shedding",
   "blackout", "outage", "voltage", "transformer"]

def garbage_keywords : List String :=
  ["garbage", "waste", "sewage", "trash", "dumping", "garbage collection",
   "solid waste", "refuse"]

def water_keywords : List String :=
  ["water supply", "water shortage", "water pressure", "no water",
   "water problem", "water issue", "water cut", "water connection"]

def road_keywords : List String :=
  ["road", "pothole", "bridge", "street", "highway", "pavement", "footpath",
   "sidewalk", "road repair", "road condition"]

def transport_keywords : List String :=
  ["bus", "transport", "st bus", "state transport", "msrtc", "public transport"]

def railway_keywords : List String :=
  ["train", "railway", "railway station", "rail", "locomotive", "railway ticket"]

def education_keywords : List String :=
  ["school", "education", "college", "teacher", "student", "tuition",
   "scholarship", "exam"]

def health_keywords : List String :=
  ["hospital", "health", "clinic", "doctor", "medicine", "treatment",
   "healthcare", "medical"]

def environment_keywords : List String :=
  ["pollution", "environment", "air quality", "noise", "toxic",
   "contamination", "emission"]

def postal_keywords : List String :=
  ["post", "mail", "postal", "post office", "parcel", "letter"]

def telecom_keywords : List String :=
  ["internet", "telecom", "mobile", "phone", "network", "signal", "data",
   "broadband"]

def drainage_keywords : List String :=
  ["drainage", "sewer", "sewerage", "drain", "flooding", "water logging"]

def streetlight_keywords : List String :=
  ["street light", "streetlight", "lamp post", "lighting", "dark street"]

/-- Keys of `INDIAN_DEPARTMENTS` in `src/config/india_data.py`. -/
def deptKeys : List String :=
  ["bmc", "pune_municipal", "nagpur_municipal", "municipal",
   "maharashtra_police", "mumbai_police", "fire", "maharashtra_pwd", "msrtc",
   "maharashtra_health", "maharashtra_education", "central_railways",
   "central_post", "mseb", "central_telecom", "maharashtra_environment",
   "rural_development"]

/-- The `name` field of each `INDIAN_DEPARTMENTS` entry
(`src/config/india_data.py`). -/
def deptDisplayName (k : String) : String :=
  match k with
  | "bmc" => "Brihanmumbai Municipal Corporation (BMC)"
  | "pune_municipal" => "Pune Municipal Corporation (PMC)"
  | "nagpur_municipal" => "Nagpur Municipal Corporation (NMC)"
  | "municipal" => "Municipal Corporation"
  | "maharashtra_police" => "Maharashtra Police"
  | "mumbai_police" => "Mumbai Police"
  | "fire" => "Maharashtra Fire Department"
  | "maharashtra_pwd" => "Maharashtra Public Works Department (PWD)"
  | "msrtc" => "Maharashtra State Road Transport Corporation (MSRTC)"
  | "maharashtra_health" => "Maharashtra Health Department"
  | "maharashtra_education" => "Maharashtra Education Department"
  | "central_railways" => "Indian Railways"
  | "central_post" => "India Post"
  | "mseb" => "Maharashtra State Electricity Board (MSEB)"
  | "central_telecom" => "Telecom Regulatory Authority"
  | "maharashtra_environment" => "Maharashtra Environment Department"
  | "rural_development" => "Rural Development Department"
  | _ => "Municipal Corporation"

/-- City-dependent municipal routing used in several keyword branches
(`classification.py` lines 156-164 etc.): mumbai→bmc, pune→pune_municipal,
nagpur→nagpur_municipal, otherwise the generic municipal corporation.
`cityL` is the already-lowercased city string; the checks are Python
substring tests (`"mumbai" in city`). -/
def municipalByCity (cityL : String) : String :=
  if containsSub "mumbai" cityL then "bmc"
  else if containsSub "pune" cityL then "pune_municipal"
  else if containsSub "nagpur" cityL then "nagpur_municipal"
  else "municipal"

/-- Result of the keyword-based routing chain that runs before the LLM
(`classification.py` lines 82-242): `department_key`, `urgency`, `category`,
each still `None` when the chain did not fix it. -/
structure ScanResult where
  dept : Option String
  urg : Option String
  cat : Option String
  deriving Repr, DecidableEq

/-- The first-match-wins keyword chain of `_classify_with_llm`
(lines 111-242).  `descL` is `description.lower()`, `cityL` is
`provided_location.get("city", "").lower()`. -/
def keywordScan (descL cityL : String) : ScanResult :=
  if containsAny fire_keywords descL then
    ⟨some "fire", some "urgent", some "safety"⟩
  else if containsAny medical_keywords descL then
    ⟨some "maharashtra_health", some "urgent", some "health"⟩
  else if containsAny accident_keywords descL then
    ⟨some (if containsSub "mumbai" cityL then "mumbai_police" else "maharashtra_police"),
     some "urgent", some "safety"⟩
  else if containsAny gas_keywords descL then
    ⟨some "fire", some "urgent", some "safety"⟩
  else if containsAny police_keywords descL then
    -- lines 136-149: a missing city falls back to a "mumbai" scan of the text
    let city' := if cityL = "" ∧ containsSub "mumbai" descL then "mumbai" else cityL
    ⟨some (if containsSub "mumbai" city' then "mumbai_police" else "maharashtra_police"),
     some (if containsSub "in progress" descL || containsSub "happening" descL
              || containsSub "urgent" descL then "urgent" else "high"),
     some "safety"⟩
  else if containsAny electricity_keywords descL then
    ⟨some "mseb", none, some "utilities"⟩
  else if containsAny garbage_keywords descL then
    ⟨some (municipalByCity cityL), none, some "sanitation"⟩
  else if containsAny water_keywords descL then
    ⟨some (municipalByCity cityL), none, some "utilities"⟩
  else if containsAny road_keywords descL then
    ⟨some (municipalByCity cityL), none, some "infrastructure"⟩
  else if containsAny transport_keywords descL then
    ⟨some "msrtc", none, some "transport"⟩
  else if containsAny railway_keywords descL then
    ⟨some "central_railways", none, some "transport"⟩
  else if containsAny education_keywords descL then
    ⟨some "maharashtra_education", none, some "education"⟩
  else if containsAny health_keywords descL then
    ⟨some "maharashtra_health", none, some "health"⟩
  else if containsAny environment_keywords descL then
    ⟨some "maharashtra_environment", none, some "environment"⟩
  else if containsAny postal_keywords descL then
    ⟨some "central_post", none, some "other"⟩
  else if containsAny telecom_keywords descL then
    ⟨some "central_telecom", none, some "utilities"⟩
  else if containsAny drainage_keywords descL then
    ⟨some (municipalByCity cityL), none, some "infrastructure"⟩
  else if containsAny streetlight_keywords descL then
    ⟨some (municipalByCity cityL), none, some "infrastructure"⟩
  else
    ⟨none, none, none⟩

/-- The parsed JSON object extracted from the classification LLM response
(fields read via `parsed.get(...)` in lines 277-398).  Confidence/reasoning
metadata and the extracted-location merge are omitted: no claim refers to
them. -/
structure ClassifyParsed where
  urgency : Option String
  category : Option String
  department : Option String
  departmentName : Option String
  deriving Repr, DecidableEq

/-- Output of the classification stage (the fields of the result dict the
workflow consumes). -/
structure ClassifyOut where
  urgency : String
  category : String
  department : String
  departmentName : String
  deriving Repr, DecidableEq

def validUrgencies : List String := ["urgent", "high", "medium", "low"]

def validCategories : List String :=
  ["infrastructure", "utilities", "sanitation", "transport", "health",
   "education", "safety", "environment", "governance", "other"]

/-- The shortened keyword lists of the municipal-override re-check
(`classification.py` lines 310-330). -/
def electricity_short : List String :=
  ["electricity", "power", "meter", "electric", "power cut"]

def transport_short : List String := ["bus", "transport", "st bus", "state transport"]

def railway_short : List String := ["train", "railway", "railway station"]

def education_short : List String := ["school", "education", "college", "teacher"]

def health_short : List String := ["hospital", "health", "clinic", "doctor"]

def environment_short : List String := ["pollution", "environment", "air quality"]

/-- Police routing with the city fallback scan of the description
(`classification.py` lines 298-305 and 338-344). -/
def policeDeptFor (cityL descL : String) : String :=
  let city' := if cityL = "" ∧ containsSub "mumbai" descL then "mumbai" else cityL
  if containsSub "mumbai" city' then "mumbai_police" else "maharashtra_police"

/-- Embeds `_classify_with_llm` (`classification.py` lines 61-408): keyword chain,
merge with the parsed LLM output, municipal-override re-checks, the critical
police safety check, municipal-by-location resolution, and final validation
against the department catalog.  `description`/`city` are the raw inputs;
`p` is the JSON object parsed out of the service's response (the failure
path in which no JSON parses raises and is handled by the workflow fallback,
which no claim covers). -/
def classify_with_llm (description city : String) (p : ClassifyParsed) : ClassifyOut :=
  let descL := (pyLower description)
  let cityL := (pyLower city)
  let scan := keywordScan descL cityL
  -- lines 276-281: urgency from keywords if fixed, else LLM, validated
  let urgency0 := scan.urg.getD (p.urgency.getD "medium")
  let urgency1 := if urgency0 ∈ validUrgencies then urgency0 else "medium"
  -- lines 283-290: category from keywords if fixed, else LLM, validated
  let category0 := scan.cat.getD (p.category.getD "other")
  let category1 := if category0 ∈ validCategories then category0 else "other"
  -- lines 292-333: department from keywords if fixed, else LLM; if the LLM
  -- said "municipal", re-check the description one more time
  let merged : String × String × String :=
    match scan.dept with
    | some d => (d, urgency1, category1)
    | none =>
      let d0 := p.department.getD "municipal"
      if d0 = "municipal" then
        if containsAny police_keywords descL then
          (policeDeptFor cityL descL,
           if urgency1 = "" then "high" else urgency1,
           if category1 = "" then "safety" else category1)
        else if containsAny electricity_short descL then
          ("mseb", urgency1, if category1 = "" then "utilities" else category1)
        else if containsAny transport_short descL then
          ("msrtc", urgency1, if category1 = "" then "transport" else category1)
        else if containsAny railway_short descL then
          ("central_railways", urgency1, if category1 = "" then "transport" else category1)
        else if containsAny education_short descL then
          ("maharashtra_education", urgency1, if category1 = "" then "education" else category1)
        else if containsAny health_short descL then
          ("maharashtra_health", urgency1, if category1 = "" then "health" else category1)
        else if containsAny environment_short descL then
          ("maharashtra_environment", urgency1, if category1 = "" then "environment" else category1)
        else (d0, urgency1, category1)
      else (d0, urgency1, category1)
  let dept2 := merged.1
  let urgency2 := merged.2.1
  let category2 := merged.2.2
  -- lines 336-348: critical safety check, police issues must not go municipal
  let afterPolice : String × String × String :=
    if containsAny police_keywords descL
        && decide (dept2 ∈ ["municipal", "bmc", "pune_municipal", "nagpur_municipal"]) then
      (policeDeptFor cityL descL,
       if urgency2 = "urgent" || urgency2 = "high" then urgency2 else "high",
       "safety")
    else (dept2, urgency2, category2)
  let dept3 := afterPolice.1
  let urgency3 := afterPolice.2.1
  let category3 := afterPolice.2.2
  -- lines 350-370: resolve a plain "municipal" key by location
  let dept4 :=
    if dept3 = "municipal" then
      let cityLoc :=
        if cityL = "" then
          if containsSub "mumbai" descL then "mumbai"
          else if containsSub "pune" descL then "pune"
          else if containsSub "nagpur" descL then "nagpur"
          else cityL
        else cityL
      if containsSub "mumbai" cityLoc then "bmc"
      else if containsSub "pune" cityLoc then "pune_municipal"
      else if containsSub "nagpur" cityLoc then "nagpur_municipal"
      else dept3
    else dept3
  -- lines 372-377: validate against the catalog; display name may be
  -- overridden by the LLM
  let dept5 := if dept4 ∈ deptKeys then dept4 else "municipal"
  { urgency := urgency3
    category := category3
    department := dept5
    departmentName := p.departmentName.getD (deptDisplayName dept5) }

/-! ## Sentiment agent (`src/agents/sentiment.py`) -/

/-- The parsed JSON object from the sentiment LLM response, before
validation (`_analyze_sentiment_with_llm` lines 106-120 read these keys with
defaults).  A response whose numeric fields fail `float()` raises inside the
try-block and is absorbed by `process`'s neutral-default except-branch, which
`sentimentProcess` models separately. -/
structure SentimentParsed where
  sentimentScore : Option ℚ
  emotionLevel : Option String
  urgencyBoost : Option ℚ
  priorityRecommendation : Option String
  frustrationIndicators : List String
  deriving Repr, DecidableEq

/-- The sentiment result handed to the workflow. -/
structure SentimentOut where
  sentimentScore : ℚ
  emotionLevel : String
  frustrationIndicators : List String
  urgencyBoost : ℚ
  priorityRecommendation : String
  deriving Repr, DecidableEq

def valid_emotions : List String := ["calm", "concerned", "frustrated", "angry", "urgent"]

def valid_priorities : List String := ["normal", "high", "urgent"]

/-- Python's `min(a, b)` on numbers (reduces in the kernel, unlike the
lattice operations). -/
def pymin (a b : ℚ) : ℚ := if a ≤ b then a else b

/-- Python's `max(a, b)` on numbers. -/
def pymax (a b : ℚ) : ℚ := if a ≤ b then b else a

/-- Validation/normalisation of the parsed response
(`_analyze_sentiment_with_llm` lines 106-130): clamp the score into [-1, 1],
the boost into [0, 1], and reject unknown enum values. -/
def validateSentiment (p : SentimentParsed) : SentimentOut :=
  let score := pymax (-1 : ℚ) (pymin 1 (p.sentimentScore.getD 0))
  let emotion := pyLower (p.emotionLevel.getD "calm")
  let emotion := if emotion ∈ valid_emotions then emotion else "calm"
  let boost := pymax (0 : ℚ) (pymin 1 (p.urgencyBoost.getD 0))
  let priority := pyLower (p.priorityRecommendation.getD "normal")
  let priority := if priority ∈ valid_priorities then priority else "normal"
  { sentimentScore := score, emotionLevel := emotion,
    frustrationIndicators := p.frustrationIndicators,
    urgencyBoost := boost, priorityRecommendation := priority }

def critical_anger : List String :=
  ["very angry", "extremely angry", "furious", "outraged", "livid",
   "fed up", "had enough", "unacceptable", "disgusted", "appalled"]

def high_frustration : List String :=
  ["frustrated", "annoyed", "irritated", "disappointed", "upset",
   "not happy", "dissatisfied", "complained before", "no response",
   "ignored", "neglected", "repeated complaint"]

def urgency_language : List String :=
  ["immediately", "urgent", "asap", "right now", "emergency",
   "critical", "life threatening", "dangerous", "unsafe"]

def positive_indicators : List String :=
  ["thank you", "appreciate", "grateful", "please", "kindly",
   "respectfully", "hope", "would be great"]

/-- Critical-anger overlay (`_apply_keyword_boosts` lines 152-163). -/
def angerBlock (descL : String) (r : SentimentOut) : SentimentOut :=
  if containsAny critical_anger descL then
    { r with
      emotionLevel := "angry"
      sentimentScore := pymin (-8/10 : ℚ) r.sentimentScore
      urgencyBoost := pymax (7/10 : ℚ) r.urgencyBoost
      priorityRecommendation := "urgent"
      frustrationIndicators :=
        if "critical_anger" ∈ r.frustrationIndicators then r.frustrationIndicators
        else r.frustrationIndicators ++ ["critical_anger_detected"] }
  else r

/-- High-frustration overlay (lines 165-177). -/
def frustrationBlock (descL : String) (r : SentimentOut) : SentimentOut :=
  if containsAny high_frustration descL then
    { r with
      emotionLevel :=
        if r.emotionLevel = "angry" ∨ r.emotionLevel = "urgent" then r.emotionLevel
        else "frustrated"
      sentimentScore := pymin (-5/10 : ℚ) r.sentimentScore
      urgencyBoost := pymax (4/10 : ℚ) r.urgencyBoost
      priorityRecommendation :=
        if r.priorityRecommendation = "normal" then "high"
        else r.priorityRecommendation }
  else r

/-- Urgency-language overlay (lines 179-187). -/
def urgencyBlock (descL : String) (r : SentimentOut) : SentimentOut :=
  if containsAny urgency_language descL then
    { r with
      urgencyBoost := pymax (5/10 : ℚ) r.urgencyBoost
      priorityRecommendation :=
        if r.priorityRecommendation ≠ "urgent" then "high"
        else r.priorityRecommendation }
  else r

/-- Positive-sentiment clamp (lines 189-196). -/
def positiveBlock (descL : String) (r : SentimentOut) : SentimentOut :=
  if containsAny positive_indicators descL then
    { r with
      sentimentScore :=
        if r.sentimentScore < 0 then pymax (-3/10 : ℚ) r.sentimentScore
        else r.sentimentScore }
  else r

/-- Embeds `_apply_keyword_boosts` (`sentiment.py` lines 139-198): the four
sequential keyword overlays on the validated result. -/
def apply_keyword_boosts (description : String) (r : SentimentOut) : SentimentOut :=
  let descL := pyLower description
  positiveBlock descL (urgencyBlock descL (frustrationBlock descL (angerBlock descL r)))

def neutralSentiment : SentimentOut :=
  { sentimentScore := 0, emotionLevel := "calm", frustrationIndicators := [],
    urgencyBoost := 0, priorityRecommendation := "normal" }

/-- Outcome of the sentiment LLM interaction: the call (or the JSON
extraction / `float()` conversion) raised, or a JSON object was parsed. -/
inductive SentimentCall where
  | throws
  | returns (p : SentimentParsed)
  deriving Repr, DecidableEq

/-- Embeds `SentimentAnalysisAgent.process` (`sentiment.py` lines 31-80): empty
description and any raised error both yield the neutral default; otherwise
the validated response with keyword overlays applied. -/
def sentimentProcess (description : String) (call : SentimentCall) : SentimentOut :=
  if description = "" then neutralSentiment
  else
    match call with
    | .throws => neutralSentiment
    | .returns p => apply_keyword_boosts description (validateSentiment p)

/-- The sentiment-driven urgency adjustment in the orchestrator
(`complaint_workflow.py` `_analyze_sentiment`, lines 217-240). -/
def adjustUrgency (emotion priority urgency : String) : String :=
  let rank := urgencyRank urgency
  if emotion = "angry" ∨ emotion = "urgent" then
    if rank < 4 then "urgent" else urgency
  else if emotion = "frustrated" then
    if rank < 3 then
      if urgency = "low" then "medium"
      else if urgency = "medium" then "high"
      else urgency
    else urgency
  else if priority = "high" ∧ rank < 3 then
    if urgency = "low" then "medium"
    else if urgency = "medium" then "high"
    else urgency
  else urgency

/-! ## SLA assignment agent (`src/agents/sla_assignment.py`) -/

/-- The Python clamp idiom `if h > hi: h = hi  elif h < lo: h = lo` used by
every situation-specific band in `_assign_sla_with_llm`. -/
def bandClamp (lo hi h : ℚ) : ℚ :=
  if h > hi then hi else if h < lo then lo else h

/-- The Python cap idiom `if h > c: h = c`. -/
def capAt (c h : ℚ) : ℚ :=
  if h > c then c else h

/-- The Python floor idiom `if h < c: h = c`. -/
def floorAt (c h : ℚ) : ℚ :=
  if h < c then c else h

/-- Urgency-based default hours (`sla_assignment.py` lines 141-147),
`default_sla.get(urgency, 72.0)`. -/
def defaultSlaHours (urgency : String) : ℚ :=
  match urgency with
  | "urgent" => 1/2
  | "high" => 6
  | "medium" => 72
  | "low" => 168
  | _ => 72

def sla_fire_keywords : List String :=
  ["fire", "burning", "blaze", "smoke", "flames", "on fire", "caught fire"]

def sla_medical_keywords : List String :=
  ["medical emergency", "heart attack", "stroke", "unconscious",
   "not breathing", "ambulance"]

def sla_accident_keywords : List String :=
  ["accident", "crash", "collision", "injured", "hurt", "bleeding", "trapped"]

def sla_gas_keywords : List String :=
  ["gas leak", "gas smell", "lpg leak", "explosion risk", "gas emergency"]

def sla_collapse_keywords : List String :=
  ["building collapse", "wall collapse", "structure falling",
   "unsafe building", "trapped"]

def sla_crime_keywords : List String :=
  ["robbery", "assault", "attack", "violence", "threat", "danger",
   "crime in progress"]

def sla_electrical_keywords : List String :=
  ["electrical fire", "power line down", "sparking wires", "live wire",
   "electrical hazard"]

def sla_health_risk_keywords : List String :=
  ["contamination", "disease outbreak", "unsafe water", "food poisoning",
   "health risk"]

def sla_infrastructure_keywords : List String :=
  ["bridge collapse", "major road damage", "building structural",
   "infrastructure failure"]

def sla_cosmetic_keywords : List String :=
  ["paint", "aesthetic", "cosmetic", "minor repair"]

/-- The urgent-tier clamp sequence (`_assign_sla_with_llm` lines 158-228).
Each block applies its band only when its keyword/department condition
holds; the tier ends with the unconditional 2-hour cap. -/
def clampUrgent (descL dept : String) (h : ℚ) : ℚ :=
  let h := if containsAny sla_fire_keywords descL || dept = "fire" then bandClamp (1/4) (1/2) h else h
  let h := if containsAny sla_medical_keywords descL || dept = "maharashtra_health" then bandClamp (1/4) (1/2) h else h
  let h := if containsAny sla_accident_keywords descL
              && decide (dept ∈ ["maharashtra_police", "mumbai_police"]) then bandClamp (1/2) 1 h else h
  let h := if containsAny sla_gas_keywords descL then bandClamp (1/4) (1/2) h else h
  let h := if containsAny sla_collapse_keywords descL then bandClamp (1/2) 1 h else h
  let h := if containsAny sla_crime_keywords descL
              && decide (dept ∈ ["maharashtra_police", "mumbai_police"]) then bandClamp (1/4) (1/2) h else h
  let h := if containsAny sla_electrical_keywords descL
              && decide (dept ∈ ["fire", "mseb"]) then bandClamp (1/4) (1/2) h else h
  capAt 2 h

/-- The high-tier clamp sequence (lines 233-274). -/
def clampHigh (descL dept : String) (h : ℚ) : ℚ :=
  let h := if containsAny sla_health_risk_keywords descL then bandClamp 2 6 h else h
  let h := if containsAny sla_infrastructure_keywords descL
              && decide (dept ∈ ["maharashtra_pwd", "bmc", "pune_municipal", "municipal"]) then bandClamp 4 12 h else h
  let h := if (containsSub "power outage" descL || containsSub "power cut" descL)
              && dept = "mseb" then bandClamp 2 8 h else h
  let h := if (containsSub "water contamination" descL || containsSub "contaminated water" descL)
              && decide (dept ∈ ["bmc", "pune_municipal", "municipal"]) then bandClamp 2 6 h else h
  capAt 12 h

/-- The medium-tier clamp sequence (lines 279-339); it ends with the
24-168 hour band. -/
def clampMedium (descL dept : String) (h : ℚ) : ℚ :=
  let h := if (containsSub "garbage" descL || containsSub "waste" descL)
              && decide (dept ∈ ["bmc", "pune_municipal", "municipal"]) then bandClamp 24 72 h else h
  let h := if (containsSub "road" descL || containsSub "pothole" descL)
              && decide (dept ∈ ["bmc", "pune_municipal", "maharashtra_pwd", "municipal"]) then bandClamp 48 120 h else h
  let h := if (containsSub "water" descL && containsSub "supply" descL)
              && decide (dept ∈ ["bmc", "pune_municipal", "municipal"]) then bandClamp 24 72 h else h
  let h := if (containsSub "electricity" descL || containsSub "power" descL)
              && dept = "mseb" then bandClamp 24 72 h else h
  let h := if (containsSub "drainage" descL || containsSub "drain" descL)
              && decide (dept ∈ ["bmc", "pune_municipal", "municipal"]) then bandClamp 48 96 h else h
  let h := if (containsSub "street light" descL || containsSub "light" descL)
              && decide (dept ∈ ["bmc", "pune_municipal", "municipal"]) then bandClamp 48 120 h else h
  bandClamp 24 168 h

/-- The low-tier clamp sequence (lines 344-359); it ends with the
168-336 hour band. -/
def clampLow (descL : String) (h : ℚ) : ℚ :=
  let h := if containsAny sla_cosmetic_keywords descL then bandClamp 168 336 h else h
  bandClamp 168 336 h

/-- The urgency-tier dispatch (the `if urgency == ... elif ...` chain of
lines 158-344). -/
def tierClamp (urgency descL dept : String) (h : ℚ) : ℚ :=
  if urgency = "urgent" then clampUrgent descL dept h
  else if urgency = "high" then clampHigh descL dept h
  else if urgency = "medium" then clampMedium descL dept h
  else if urgency = "low" then clampLow descL h
  else h

/-- The layered clamp of `_assign_sla_with_llm` (lines 152-368): the
urgency-tier sequence followed by the unconditional absolute bounds
`[0.25, 336]` (two separate ifs, lines 365-368). -/
def applySlaClamps (urgency description dept : String) (h : ℚ) : ℚ :=
  capAt 336 (floorAt (1/4) (tierClamp urgency (pyLower description) dept h))

/-- Result of the SLA stage. -/
structure SlaOut where
  slaHours : ℚ
  slaDeadline : ℚ
  deriving Repr, DecidableEq

/-- Success path of `_assign_sla_with_llm` once a JSON object with a numeric
(or absent) `sla_hours` has been extracted: clamp and compute
`deadline = now + timedelta(hours=sla_hours)` (lines 139-382). -/
def assign_sla (urgency description dept : String) (suggested : Option ℚ) (now : ℚ) : SlaOut :=
  let h := suggested.getD (defaultSlaHours urgency)
  let h := applySlaClamps urgency description dept h
  { slaHours := h, slaDeadline := now + h }

/-- How the SLA LLM interaction can go, following the control flow of
`_assign_sla_with_llm` lines 93-150 and `process` lines 48-58:
  - `throws`: `self.llm.invoke` itself raised;
  - `returns .unparseable`: the service returned text, but no JSON object
    could be extracted (regex and brace-scan both fail, lines 101-137), the
    extracted JSON is invalid, or `float(parsed["sla_hours"])` raised
    (line 150) — all of these raise out of the agent;
  - `returns (.parsed v)`: a JSON object was parsed; `v` is its numeric
    `sla_hours` value, `none` when the key is absent. -/
inductive SlaResponse where
  | unparseable
  | parsed (slaHours : Option ℚ)
  deriving Repr, DecidableEq

inductive SlaCall where
  | throws
  | returns (r : SlaResponse)
  deriving Repr, DecidableEq

/-- Embeds `SLAAssignmentAgent.process` (lines 32-58): every raised exception is
re-raised as `RuntimeError` (the workflow catches it); a parsed response is
always clamped and returned. -/
def slaProcess (urgency description dept : String) (call : SlaCall) (now : ℚ) :
    Except String SlaOut :=
  match call with
  | .throws => .error "SLA assignment agent failed: llm invocation raised"
  | .returns .unparseable => .error "SLA assignment agent failed: no JSON found in LLM response"
  | .returns (.parsed v) => .ok (assign_sla urgency description dept v now)

/-! ## Complaint pipeline orchestrator (`src/workflows/complaint_workflow.py`)

The LangGraph state machine is linear
(classify → analyze_sentiment → assign_sla → analyze_policy → persist →
notify), so it is embedded as function composition over an explicit state
record.  Fields of `ComplaintState` that no claim mentions (citizen contact
data, attachments, extracted location, agent metadata blobs) are omitted;
location is reduced to the city string, the only part the embedded code
reads. -/

/-- The workflow state (`ComplaintState`), restricted to the embedded
fields. -/
structure PipeState where
  complaintId : String
  description : String
  city : String
  structuredCategory : String
  urgency : String
  department : String
  departmentName : String
  slaDeadline : ℚ
  slaHours : ℚ
  sentimentScore : ℚ
  emotionLevel : String
  urgencyBoost : ℚ
  priorityRecommendation : String
  applicablePolicies : List String
  legalSlaHours : Option ℚ
  policyViolation : Bool
  policyReference : Option String
  suggestedAction : String
  status : String
  escalationLevel : String
  citizenMessage : String
  citizenSubject : String
  errors : List String
  deriving Repr, DecidableEq

/-- The initial state built in `ComplaintWorkflow.run` (lines 483-504). -/
def initState (description city : String) : PipeState :=
  { complaintId := ""
    description := description
    city := city
    structuredCategory := ""
    urgency := ""
    department := ""
    departmentName := ""
    slaDeadline := 0
    slaHours := 0
    sentimentScore := 0
    emotionLevel := ""
    urgencyBoost := 0
    priorityRecommendation := ""
    applicablePolicies := []
    legalSlaHours := none
    policyViolation := false
    policyReference := none
    suggestedAction := ""
    status := "open"
    escalationLevel := "none"
    citizenMessage := ""
    citizenSubject := ""
    errors := [] }

/-- The workflow-level fire double-check list (`_classify_complaint`
line 135). -/
def workflow_fire_keywords : List String :=
  ["fire", "burning", "blaze", "smoke", "flames", "on fire", "caught fire",
   "fire broke out"]

/-- Embeds `_classify_complaint` (lines 117-200), success path: run the unified
classification agent, then the critical fire safety net, then initialise the
sentiment fields.  The except-branch (fallback to the separate understanding
and routing agents, lines 169-198) is not embedded: it runs only when the
classification service call raises, which no claim quantifies over. -/
def classifyNode (s : PipeState) (p : ClassifyParsed) : PipeState :=
  let r := classify_with_llm s.description s.city p
  let descL := pyLower s.description
  let hasFire := containsAny workflow_fire_keywords descL
  let dept := if hasFire && r.department ≠ "fire" then "fire" else r.department
  let deptName := if hasFire && r.department ≠ "fire" then "Maharashtra Fire Department" else r.departmentName
  let cat := if hasFire && r.department ≠ "fire" then "safety" else r.category
  let urg := if hasFire && r.department ≠ "fire" then "urgent" else r.urgency
  let urg := if hasFire && urg ≠ "urgent" then "urgent" else urg
  { s with
    structuredCategory := cat
    urgency := urg
    department := dept
    departmentName := deptName
    sentimentScore := 0
    emotionLevel := "calm"
    urgencyBoost := 0
    priorityRecommendation := "normal" }

/-- Embeds `_analyze_sentiment` (lines 202-267): store the agent output and adjust
urgency; the agent's own error handling already yields the neutral default,
and the node's except-branch writes the same defaults without touching
urgency, which `SentimentCall.throws` therefore also covers. -/
def sentimentNode (s : PipeState) (call : SentimentCall) : PipeState :=
  let r := sentimentProcess s.description call
  { s with
    sentimentScore := r.sentimentScore
    emotionLevel := r.emotionLevel
    urgencyBoost := r.urgencyBoost
    priorityRecommendation := r.priorityRecommendation
    urgency := adjustUrgency r.emotionLevel r.priorityRecommendation s.urgency }

/-- The fallback fire list in `_assign_sla`'s except branch (line 297). -/
def fallback_fire_keywords : List String :=
  ["fire", "burning", "blaze", "smoke", "flames"]

/-- The fallback SLA computation in `_assign_sla`'s except branch
(lines 290-314). -/
def slaFallback (s : PipeState) (now : ℚ) : ℚ × ℚ :=
  let descL := pyLower s.description
  if containsAny fallback_fire_keywords descL || s.department = "fire" then
    (1/2, now + 1/2)
  else if s.urgency = "urgent" then (1, now + 1)
  else if s.urgency = "high" then (6, now + 6)
  else if s.urgency = "medium" then (72, now + 72)
  else (168, now + 168)

/-- Embeds `_assign_sla` (lines 269-316): the agent result on success, the
keyword+urgency fallback deadline when the agent raises. -/
def slaNode (s : PipeState) (call : SlaCall) (now : ℚ) : PipeState :=
  match slaProcess s.urgency s.description s.department call now with
  | .ok r => { s with slaDeadline := r.slaDeadline, slaHours := r.slaHours }
  | .error e =>
    let fb := slaFallback s now
    { s with
      errors := s.errors ++ ["SLA assignment failed: " ++ e]
      slaHours := fb.1
      slaDeadline := fb.2 }

/-- What the policy agent hands back to the workflow (`_analyze_policy`
reads these keys, lines 330-336).  The agent recovers internally from its
own LLM errors, so the node sees either this record or a raised exception
(`PolicyCall.throws`, the node's except branch). -/
structure PolicyOut where
  applicablePolicies : List String
  legalSlaHours : Option ℚ
  policyViolation : Bool
  policyReference : Option String
  suggestedAction : Option String
  deriving Repr, DecidableEq

inductive PolicyCall where
  | throws
  | returns (p : PolicyOut)
  deriving Repr, DecidableEq

/-- Embeds `_analyze_policy` (lines 318-384): store the agent output, then
independently recompute the violation flag by comparing legal and assigned
SLA (both must be non-zero, mirroring Python numeric truthiness,
lines 338-352); on a raised error, write the documented defaults. -/
def policyNode (s : PipeState) (call : PolicyCall) : PipeState :=
  match call with
  | .returns p =>
    let violation :=
      match p.legalSlaHours with
      | some legal =>
        if legal ≠ 0 ∧ s.slaHours ≠ 0 ∧ s.slaHours > legal then true
        else p.policyViolation
      | none => p.policyViolation
    { s with
      applicablePolicies := p.applicablePolicies
      legalSlaHours := p.legalSlaHours
      policyViolation := violation
      policyReference := p.policyReference
      suggestedAction := p.suggestedAction.getD "Standard complaint processing" }
  | .throws =>
    { s with
      errors := s.errors ++ ["Policy analysis failed"]
      applicablePolicies := []
      legalSlaHours := none
      policyViolation := false
      policyReference := none
      suggestedAction := "Standard complaint processing" }

/-- The record handed to `db.create_complaint` (`_persist_complaint`
lines 393-419), restricted to the embedded fields; the metadata blob keeps
the parts a claim could mention. -/
structure ComplaintRecord where
  id : String
  description : String
  structuredCategory : String
  responsibleDepartment : String
  status : String
  urgency : String
  slaDeadline : ℚ
  escalationLevel : String
  slaHours : ℚ
  workflowErrors : List String
  deriving Repr, DecidableEq

/-- Embeds `complaint_data` as built in `_persist_complaint` lines 393-419:
status and escalation level are the literal constants
`ComplaintStatus.OPEN.value` and `EscalationLevel.NONE.value`. -/
def buildComplaintData (s : PipeState) (cid : String) : ComplaintRecord :=
  { id := cid
    description := s.description
    structuredCategory := s.structuredCategory
    responsibleDepartment := s.department
    status := "open"
    urgency := s.urgency
    slaDeadline := s.slaDeadline
    escalationLevel := "none"
    slaHours := s.slaHours
    workflowErrors := s.errors }

/-- Embeds `_persist_complaint` (lines 386-447): pick or generate the id, build the
record, call the gateway.  A raised `db.create_complaint` exception is
caught in the node itself: the error is appended and the (unchanged) state
returned, so the workflow continues to the notify node.  The second
component is the record the gateway actually stored (`none` on failure). -/
def persistNode (s : PipeState) (freshId : String) (gateway : Except String Unit) :
    PipeState × Option ComplaintRecord :=
  let cid := if s.complaintId = "" then freshId else s.complaintId
  let s := { s with complaintId := cid }
  let record := buildComplaintData s cid
  match gateway with
  | .ok _ => (s, some record)
  | .error e => ({ s with errors := s.errors ++ ["Persistence failed: " ++ e] }, none)

/-- The citizen-communication agent interaction in `_notify_citizen`. -/
inductive CommCall where
  | throws
  | returns (message subject : String)
  deriving Repr, DecidableEq

/-- Embeds `_notify_citizen` (lines 449-471): store the generated message, or
append an error when the communication agent raises. -/
def notifyNode (s : PipeState) (call : CommCall) : PipeState :=
  match call with
  | .returns m subj => { s with citizenMessage := m, citizenSubject := subj }
  | .throws => { s with errors := s.errors ++ ["Notification failed"] }

/-- The whole pipeline run (`ComplaintWorkflow.run`): the six nodes in
sequence over the initial state.  Returns the final state and the record
created by the persistence gateway, if any.  `run` returns the state in all
cases (its own except-branch also returns the state rather than raising). -/
def runPipeline (description city : String) (cp : ClassifyParsed)
    (sc : SentimentCall) (slc : SlaCall) (pc : PolicyCall)
    (gateway : Except String Unit) (comm : CommCall)
    (freshId : String) (now : ℚ) : PipeState × Option ComplaintRecord :=
  let s := initState description city
  let s := classifyNode s cp
  let s := sentimentNode s sc
  let s := slaNode s slc now
  let s := policyNode s pc
  let pr := persistNode s freshId gateway
  (notifyNode pr.1 comm, pr.2)

/-! ## Monitoring & escalation state machine
(`src/workflows/monitoring_workflow.py`, `src/agents/monitoring.py`,
`src/agents/escalation.py`, store operations from `src/models/database.py`)

The Supabase store is explicit: a list of complaint rows and a list of
escalation rows.  Timestamps are rational hours.  Free-text fields of the
escalation record (reason, authority, generated id) are omitted: the claims
mention only the back-reference and the level. -/

/-- A complaint row, restricted to the fields the monitoring cycle reads or
writes. -/
structure MComplaint where
  cid : Nat
  status : String
  urgency : String
  escalationLevel : String
  slaDeadline : ℚ
  updatedAt : ℚ
  structuredCategory : String
  description : String
  responsibleDepartment : String
  followupCount : Nat
  deriving Repr, DecidableEq

/-- An escalation row (`escalation_record` in `_escalate_complaints`
lines 148-154), restricted to the embedded fields. -/
structure EscRecord where
  complaintId : Nat
  escalationLevel : String
  deriving Repr, DecidableEq

structure Store where
  complaints : List MComplaint
  escalations : List EscRecord
  deriving Repr, DecidableEq

/-- Embeds `db.get_complaint` (`database.py` lines 75-92). -/
def lookupComplaint (s : Store) (cid : Nat) : Option MComplaint :=
  s.complaints.find? (fun c => c.cid = cid)

/-- Embeds `db.update_complaint` restricted to the embedded fields: apply `f` to
the row with the given id, always rewriting `updated_at` (lines 94-204). -/
def updateComplaint (s : Store) (cid : Nat) (now : ℚ) (f : MComplaint → MComplaint) : Store :=
  { s with complaints :=
      s.complaints.map (fun c =>
        if c.cid = cid then { f c with updatedAt := now } else c) }

/-- Embeds `round(x, 2)` applied to the overdue hours in `check_complaint_status`
(`monitoring.py` line 138).  Mathlib's `round` rounds half away from zero
at exact ties where Python rounds half to even; the value only ever feeds
the decision service's prompt, so no claim depends on the tie case. -/
def round2 (q : ℚ) : ℚ := (round (q * 100) : ℤ) / 100

/-- The breaching scan, `db.get_complaints_breaching_sla`
(`database.py` lines 307-327): deadline strictly before now and status
neither resolved nor closed. -/
def breachingIds (s : Store) (now : ℚ) : List Nat :=
  (s.complaints.filter (fun c =>
    c.slaDeadline < now && c.status ≠ "resolved" && c.status ≠ "closed")).map (·.cid)

/-- The stale scan of `MonitoringAgent._find_stale_complaints`
(`monitoring.py` lines 54-83): in-progress rows whose
`(now - updated_at).days` exceeds 7; `timedelta.days` floors. -/
def staleIds (s : Store) (now : ℚ) : List Nat :=
  (s.complaints.filter (fun c =>
    c.status = "in_progress" && ⌊(now - c.updatedAt) / 24⌋ > 7)).map (·.cid)

/-- The follow-up node `_followup_stale` with
`FollowUpAgent.find_stale_complaints(days_without_update=3)` and
`process_followup` (`followup.py`): every in-progress row last updated
before `now - 72` hours gets its follow-up counter bumped, which rewrites
`updated_at` through `db.update_complaint`.  The drafted email / LLM content
does not touch the store. -/
def followupStep (now : ℚ) (c : MComplaint) : MComplaint :=
  if c.status = "in_progress" ∧ c.updatedAt < now - 72 then
    { c with followupCount := c.followupCount + 1, updatedAt := now }
  else c

def followupNode (s : Store) (now : ℚ) : Store :=
  { s with complaints := s.complaints.map (followupStep now) }

/-- The inputs the escalation decision service actually receives
(`_escalate_with_llm` lines 107-120): the complaint details JSON (id,
category, description truncated to 200 characters, department), the rounded
overdue hours, the urgency, and the count of past escalations.  The current
escalation level is *not* part of the prompt. -/
structure SvcIn where
  cid : Nat
  category : String
  description : String
  department : String
  hoursOverdue : ℚ
  urgency : String
  pastEscalations : Nat
  deriving Repr, DecidableEq

/-- The parsed decision-service response (`_escalate_with_llm`
lines 139-140): `escalation_needed` defaulting to false, `escalation_level`
defaulting to "none"; neither is validated against the level enum. -/
structure SvcOut where
  escalationNeeded : Bool
  escalationLevel : String
  deriving Repr, DecidableEq

/-- The decision guard of `_escalate_with_llm` (lines 139-166): no-op when
the service says no escalation, proposes "none", or proposes exactly the
current level; otherwise the proposed level is accepted as-is. -/
def escalate_with_llm (currentLevel : String) (out : SvcOut) : Option String :=
  if out.escalationNeeded = false ∨ out.escalationLevel = "none"
      ∨ out.escalationLevel = currentLevel then
    none
  else
    some out.escalationLevel

/-- The service input built for a complaint row
(`EscalationAgent.process` and `_escalate_with_llm`): past escalations are
the store rows referencing the complaint. -/
def svcInputOf (s : Store) (c : MComplaint) (hoursOverdue : ℚ) : SvcIn :=
  { cid := c.cid
    category := c.structuredCategory
    description := c.description.take 200
    department := c.responsibleDepartment
    hoursOverdue := hoursOverdue
    urgency := c.urgency
    pastEscalations := (s.escalations.filter (fun e => e.complaintId = c.cid)).length }

/-- Embeds `EscalationAgent.process` (`escalation.py` lines 34-80): look the
complaint up, gather past escalations, call the service, apply the guard.
A missing complaint yields an error dict, which the caller treats as
"no escalation". -/
def escalationAgentProcess (s : Store) (cid : Nat) (hoursOverdue : ℚ)
    (svc : SvcIn → SvcOut) : Option String :=
  (lookupComplaint s cid).bind (fun c =>
    escalate_with_llm c.escalationLevel (svc (svcInputOf s c hoursOverdue)))

/-- The overdue-hours computation of
`MonitoringAgent.check_complaint_status` (`monitoring.py` lines 99-140):
breaching iff now is strictly past the deadline; the reported overdue hours
are rounded to two decimals, 0 when not breaching. -/
def hoursOverdueOf (c : MComplaint) (now : ℚ) : ℚ :=
  if now > c.slaDeadline then round2 (now - c.slaDeadline) else 0

/-- Embeds `_check_escalations` (`monitoring_workflow.py` lines 107-138): for every
candidate id, re-read the complaint, keep it only when breaching, and record
the escalation decision.  All reads happen before `_escalate_complaints`
performs any write. -/
def checkEscalations (s : Store) (candidates : List Nat) (now : ℚ)
    (svc : SvcIn → SvcOut) : List (Nat × String) :=
  candidates.filterMap (fun cid =>
    (lookupComplaint s cid).bind (fun c =>
      if now > c.slaDeadline then
        (escalationAgentProcess s cid (hoursOverdueOf c now) svc).map (fun lvl => (cid, lvl))
      else none))

/-- One step of `_escalate_complaints` (lines 140-169): append the
escalation row, then set the complaint's status and level. -/
def escalateOne (s : Store) (now : ℚ) (e : Nat × String) : Store :=
  let s := { s with escalations := s.escalations ++ [⟨e.1, e.2⟩] }
  updateComplaint s e.1 now (fun c =>
    { c with status := "escalated", escalationLevel := e.2 })

/-- Embeds `_escalate_complaints` over the whole decision list. -/
def escalateNode (s : Store) (now : ℚ) (es : List (Nat × String)) : Store :=
  es.foldl (fun s e => escalateOne s now e) s

/-- One monitoring cycle (`MonitoringWorkflow.run`):
monitor → followup → check_escalation → escalate → notify.  The candidate
ids are computed by the monitor node *before* the follow-up node touches
`updated_at`; the notify node only sends messages and leaves the store
unchanged. -/
def runCycle (s : Store) (now : ℚ) (svc : SvcIn → SvcOut) : Store :=
  let candidates := breachingIds s now ++ staleIds s now
  let s1 := followupNode s now
  let decisions := checkEscalations s1 candidates now svc
  escalateNode s1 now decisions

/-! ## Clamp lemmas -/

theorem capAt_le (c h : ℚ) : capAt c h ≤ c := by
  unfold capAt; split_ifs with hc
  · exact le_refl c
  · exact le_of_not_lt hc

theorem capAt_le_self (c h : ℚ) : capAt c h ≤ h := by
  unfold capAt; split_ifs with hc
  · exact le_of_lt hc
  · exact le_refl h

theorem le_capAt {m c h : ℚ} (hmc : m ≤ c) (hmh : m ≤ h) : m ≤ capAt c h := by
  unfold capAt; split_ifs
  · exact hmc
  · exact hmh

theorem le_floorAt (c h : ℚ) : c ≤ floorAt c h := by
  unfold floorAt; split_ifs with hc
  · exact le_refl c
  · exact le_of_not_lt hc

theorem le_floorAt_of_le {m c h : ℚ} (hmh : m ≤ h) : m ≤ floorAt c h := by
  unfold floorAt; split_ifs with hc
  · exact le_of_lt (lt_of_le_of_lt hmh hc)
  · exact hmh

theorem floorAt_le {c h M : ℚ} (hcM : c ≤ M) (hhM : h ≤ M) : floorAt c h ≤ M := by
  unfold floorAt; split_ifs
  · exact hcM
  · exact hhM

theorem bandClamp_le {lo hi : ℚ} (h : ℚ) (hlh : lo ≤ hi) : bandClamp lo hi h ≤ hi := by
  unfold bandClamp; split_ifs with h1 h2
  · exact le_refl hi
  · exact hlh
  · exact le_of_not_lt h1

theorem le_bandClamp {lo hi : ℚ} (h : ℚ) (hlh : lo ≤ hi) : lo ≤ bandClamp lo hi h := by
  unfold bandClamp; split_ifs with h1 h2
  · exact hlh
  · exact le_refl lo
  · exact le_of_not_lt h2

theorem clampUrgent_le_two (descL dept : String) (h : ℚ) :
    clampUrgent descL dept h ≤ 2 := by
  unfold clampUrgent
  exact capAt_le _ _

theorem clampLow_mem (descL : String) (h : ℚ) :
    168 ≤ clampLow descL h ∧ clampLow descL h ≤ 336 := by
  unfold clampLow
  exact ⟨le_bandClamp _ (by norm_num), bandClamp_le _ (by norm_num)⟩

theorem tierClamp_urgent (descL dept : String) (h : ℚ) :
    tierClamp "urgent" descL dept h = clampUrgent descL dept h := by
  unfold tierClamp
  rfl

theorem tierClamp_low (descL dept : String) (h : ℚ) :
    tierClamp "low" descL dept h = clampLow descL h := by
  unfold tierClamp
  rfl

theorem applySlaClamps_abs (urgency description dept : String) (h : ℚ) :
    1/4 ≤ applySlaClamps urgency description dept h ∧
      applySlaClamps urgency description dept h ≤ 336 := by
  unfold applySlaClamps
  exact ⟨le_capAt (by norm_num) (le_floorAt _ _), capAt_le _ _⟩

theorem applySlaClamps_urgent (description dept : String) (h : ℚ) :
    applySlaClamps "urgent" description dept h ≤ 2 := by
  unfold applySlaClamps
  rw [tierClamp_urgent]
  calc capAt 336 (floorAt (1/4) (clampUrgent (pyLower description) dept h))
      ≤ floorAt (1/4) (clampUrgent (pyLower description) dept h) := capAt_le_self _ _
    _ ≤ 2 := floorAt_le (by norm_num) (clampUrgent_le_two _ _ _)

theorem applySlaClamps_low (description dept : String) (h : ℚ) :
    168 ≤ applySlaClamps "low" description dept h ∧
      applySlaClamps "low" description dept h ≤ 336 := by
  unfold applySlaClamps
  rw [tierClamp_low]
  constructor
  · exact le_capAt (by norm_num)
      (le_floorAt_of_le (clampLow_mem (pyLower description) h).1)
  · exact capAt_le _ _

/-- C3: for every input with urgency "urgent" the assigned `sla_hours` is at
most 2; with urgency "low" it lies in [168, 336]; for every input whatsoever
it lies in the absolute bounds [0.25, 336]; and the deadline is always
`now + sla_hours` — whatever numeric value the external service suggested. -/
theorem sla_stage_bounds (urgency description dept : String)
    (suggested : Option ℚ) (now : ℚ) :
    (urgency = "urgent" →
      (assign_sla urgency description dept suggested now).slaHours ≤ 2) ∧
    (urgency = "low" →
      168 ≤ (assign_sla urgency description dept suggested now).slaHours ∧
        (assign_sla urgency description dept suggested now).slaHours ≤ 336) ∧
    (1/4 ≤ (assign_sla urgency description dept suggested now).slaHours ∧
      (assign_sla urgency description dept suggested now).slaHours ≤ 336) ∧
    (assign_sla urgency description dept suggested now).slaDeadline =
      now + (assign_sla urgency description dept suggested now).slaHours := by
  refine ⟨?_, ?_, ?_, rfl⟩
  · intro hu
    subst hu
    exact applySlaClamps_urgent description dept _
  · intro hu
    subst hu
    exact applySlaClamps_low description dept _
  · exact applySlaClamps_abs urgency description dept _

/-- Witness for C3 at concrete inputs: an urgent fire complaint for which
the service suggests 100 hours, and a low-urgency one for which it suggests
1 hour. -/
theorem sla_stage_bounds_witness :
    (assign_sla "urgent" "house on fire" "fire" (some 100) 0).slaHours ≤ 2 ∧
      168 ≤ (assign_sla "low" "repaint the bench" "municipal" (some 1) 5).slaHours := by
  exact ⟨(sla_stage_bounds "urgent" "house on fire" "fire" (some 100) 0).1 rfl,
    ((sla_stage_bounds "low" "repaint the bench" "municipal" (some 1) 5).2.1 rfl).1⟩

/-- C6 counterexample: the SLA stage also fails on an *output the service
actually returned* — a response from which no JSON object (or no numeric
`sla_hours`) can be extracted is re-raised as an agent failure, not clamped;
such an outcome is not a throwing call. -/
theorem sla_rejects_returned_output_cx :
    slaProcess "medium" "garbage not collected" "municipal"
        (.returns .unparseable) 0 =
      .error "SLA assignment agent failed: no JSON found in LLM response" ∧
    SlaCall.returns .unparseable ≠ SlaCall.throws := by
  exact ⟨rfl, by decide⟩

/-- C6 (amended): the SLA stage fails exactly when the service call throws
or the returned output yields no parseable numeric `sla_hours`; every
successfully parsed suggestion — absent, invalid in range, arbitrarily
large — is clamped and returned, never rejected. -/
theorem sla_failure_characterization (urgency description dept : String)
    (call : SlaCall) (now : ℚ) :
    (∃ e, slaProcess urgency description dept call now = .error e) ↔
      (call = .throws ∨ call = .returns .unparseable) := by
  cases call with
  | throws => simp [slaProcess]
  | returns r =>
    cases r with
    | unparseable => simp [slaProcess]
    | parsed v => simp [slaProcess]

/-! ## Urgency-adjustment lemmas and pipeline preservation lemmas -/

theorem urgencyRank_le_four (u : String) : urgencyRank u ≤ 4 := by
  unfold urgencyRank
  split_ifs <;> omega

theorem urgencyRank_eq_four (u : String) (h : 4 ≤ urgencyRank u) : u = "urgent" := by
  unfold urgencyRank at h
  split_ifs at h with h1 h2 h3 h4
  · omega
  · omega
  · omega
  · exact h4
  · omega

theorem adjustUrgency_mono (e p u : String) :
    urgencyRank u ≤ urgencyRank (adjustUrgency e p u) := by
  simp only [adjustUrgency]
  by_cases h1 : e = "angry" ∨ e = "urgent"
  · rw [if_pos h1]
    by_cases h2 : urgencyRank u < 4
    · rw [if_pos h2]
      have h3 : urgencyRank "urgent" = 4 := by decide
      omega
    · rw [if_neg h2]
  · rw [if_neg h1]
    by_cases h3 : e = "frustrated"
    · rw [if_pos h3]
      by_cases h4 : urgencyRank u < 3
      · rw [if_pos h4]
        by_cases h5 : u = "low"
        · rw [if_pos h5, h5]; decide
        · rw [if_neg h5]
          by_cases h6 : u = "medium"
          · rw [if_pos h6, h6]; decide
          · rw [if_neg h6]
      · rw [if_neg h4]
    · rw [if_neg h3]
      by_cases h7 : p = "high" ∧ urgencyRank u < 3
      · rw [if_pos h7]
        by_cases h8 : u = "low"
        · rw [if_pos h8, h8]; decide
        · rw [if_neg h8]
          by_cases h9 : u = "medium"
          · rw [if_pos h9, h9]; decide
          · rw [if_neg h9]
      · rw [if_neg h7]

theorem adjustUrgency_urgent_fixed (e p : String) :
    adjustUrgency e p "urgent" = "urgent" := by
  simp only [adjustUrgency]
  have h4 : urgencyRank "urgent" = 4 := by decide
  rw [h4]
  by_cases h1 : e = "angry" ∨ e = "urgent"
  · rw [if_pos h1, if_neg (by omega : ¬(4 < 4))]
  · rw [if_neg h1]
    by_cases h3 : e = "frustrated"
    · rw [if_pos h3, if_neg (by omega : ¬(4 < 3))]
    · rw [if_neg h3]
      by_cases h7 : p = "high" ∧ (4 : ℕ) < 3
      · omega
      · rw [if_neg h7]

theorem adjustUrgency_angry (e p u : String) (he : e = "angry" ∨ e = "urgent") :
    adjustUrgency e p u = "urgent" := by
  simp only [adjustUrgency]
  rw [if_pos he]
  by_cases hr : urgencyRank u < 4
  · rw [if_pos hr]
  · rw [if_neg hr]
    exact urgencyRank_eq_four u (le_of_not_lt hr)

theorem adjustUrgency_frustrated (p : String) :
    adjustUrgency "frustrated" p "low" = "medium" ∧
    adjustUrgency "frustrated" p "medium" = "high" ∧
    adjustUrgency "frustrated" p "high" = "high" ∧
    adjustUrgency "frustrated" p "urgent" = "urgent" := by
  refine ⟨?_, ?_, ?_, ?_⟩ <;> simp [adjustUrgency, urgencyRank]

theorem slaNode_urgency (s : PipeState) (c : SlaCall) (now : ℚ) :
    (slaNode s c now).urgency = s.urgency := by
  unfold slaNode
  cases h : slaProcess s.urgency s.description s.department c now <;> rfl

theorem slaNode_dept (s : PipeState) (c : SlaCall) (now : ℚ) :
    (slaNode s c now).department = s.department := by
  unfold slaNode
  cases h : slaProcess s.urgency s.description s.department c now <;> rfl

theorem slaNode_cat (s : PipeState) (c : SlaCall) (now : ℚ) :
    (slaNode s c now).structuredCategory = s.structuredCategory := by
  unfold slaNode
  cases h : slaProcess s.urgency s.description s.department c now <;> rfl

theorem policyNode_urgency (s : PipeState) (c : PolicyCall) :
    (policyNode s c).urgency = s.urgency := by
  cases c <;> rfl

theorem policyNode_dept (s : PipeState) (c : PolicyCall) :
    (policyNode s c).department = s.department := by
  cases c <;> rfl

theorem policyNode_cat (s : PipeState) (c : PolicyCall) :
    (policyNode s c).structuredCategory = s.structuredCategory := by
  cases c <;> rfl

theorem persistNode_urgency (s : PipeState) (f : String) (g : Except String Unit) :
    (persistNode s f g).1.urgency = s.urgency := by
  unfold persistNode
  cases g <;> rfl

theorem persistNode_dept (s : PipeState) (f : String) (g : Except String Unit) :
    (persistNode s f g).1.department = s.department := by
  unfold persistNode
  cases g <;> rfl

theorem persistNode_cat (s : PipeState) (f : String) (g : Except String Unit) :
    (persistNode s f g).1.structuredCategory = s.structuredCategory := by
  unfold persistNode
  cases g <;> rfl

theorem notifyNode_urgency (s : PipeState) (c : CommCall) :
    (notifyNode s c).urgency = s.urgency := by
  unfold notifyNode
  cases c <;> rfl

theorem notifyNode_dept (s : PipeState) (c : CommCall) :
    (notifyNode s c).department = s.department := by
  unfold notifyNode
  cases c <;> rfl

theorem notifyNode_cat (s : PipeState) (c : CommCall) :
    (notifyNode s c).structuredCategory = s.structuredCategory := by
  unfold notifyNode
  cases c <;> rfl

theorem classifyNode_description (s : PipeState) (p : ClassifyParsed) :
    (classifyNode s p).description = s.description := by
  unfold classifyNode
  rfl

theorem sentimentNode_urgency (s : PipeState) (c : SentimentCall) :
    (sentimentNode s c).urgency =
      adjustUrgency (sentimentProcess s.description c).emotionLevel
        (sentimentProcess s.description c).priorityRecommendation s.urgency := by
  unfold sentimentNode
  rfl

theorem sentimentNode_dept (s : PipeState) (c : SentimentCall) :
    (sentimentNode s c).department = s.department := by
  unfold sentimentNode
  rfl

theorem sentimentNode_cat (s : PipeState) (c : SentimentCall) :
    (sentimentNode s c).structuredCategory = s.structuredCategory := by
  unfold sentimentNode
  rfl

/-- The final pipeline urgency, decomposed: everything after the sentiment
node leaves urgency untouched. -/
theorem runPipeline_urgency (description city : String) (cp : ClassifyParsed)
    (sc : SentimentCall) (slc : SlaCall) (pc : PolicyCall)
    (gw : Except String Unit) (comm : CommCall) (freshId : String) (now : ℚ) :
    (runPipeline description city cp sc slc pc gw comm freshId now).1.urgency =
      adjustUrgency (sentimentProcess description sc).emotionLevel
        (sentimentProcess description sc).priorityRecommendation
        ((classifyNode (initState description city) cp).urgency) := by
  unfold runPipeline
  rw [notifyNode_urgency, persistNode_urgency, policyNode_urgency, slaNode_urgency,
    sentimentNode_urgency, classifyNode_description]
  rfl

theorem runPipeline_dept (description city : String) (cp : ClassifyParsed)
    (sc : SentimentCall) (slc : SlaCall) (pc : PolicyCall)
    (gw : Except String Unit) (comm : CommCall) (freshId : String) (now : ℚ) :
    (runPipeline description city cp sc slc pc gw comm freshId now).1.department =
      (classifyNode (initState description city) cp).department := by
  unfold runPipeline
  rw [notifyNode_dept, persistNode_dept, policyNode_dept, slaNode_dept, sentimentNode_dept]

theorem runPipeline_cat (description city : String) (cp : ClassifyParsed)
    (sc : SentimentCall) (slc : SlaCall) (pc : PolicyCall)
    (gw : Except String Unit) (comm : CommCall) (freshId : String) (now : ℚ) :
    (runPipeline description city cp sc slc pc gw comm freshId now).1.structuredCategory =
      (classifyNode (initState description city) cp).structuredCategory := by
  unfold runPipeline
  rw [notifyNode_cat, persistNode_cat, policyNode_cat, slaNode_cat, sentimentNode_cat]

/-- C2: the urgency at the end of the pipeline is at least the urgency the
classification stage alone produced (in the order low < medium < high <
urgent): the sentiment adjustment may only raise it, and no later stage
writes the urgency field. -/
theorem pipeline_urgency_monotone (description city : String) (cp : ClassifyParsed)
    (sc : SentimentCall) (slc : SlaCall) (pc : PolicyCall)
    (gw : Except String Unit) (comm : CommCall) (freshId : String) (now : ℚ) :
    urgencyRank ((classifyNode (initState description city) cp).urgency) ≤
      urgencyRank
        ((runPipeline description city cp sc slc pc gw comm freshId now).1.urgency) := by
  rw [runPipeline_urgency]
  exact adjustUrgency_mono _ _ _

/-- C8: in the orchestrator's sentiment step, an angry or urgent emotion
forces urgency to "urgent"; a frustrated emotion raises low to medium and
medium to high, exactly one step, and leaves high and urgent unchanged; and
the sentiment step is the sole place urgency changes after classification —
the final pipeline urgency is exactly the sentiment adjustment applied to
the classification-stage urgency. -/
theorem sentiment_urgency_coupling :
    (∀ e p u, e = "angry" ∨ e = "urgent" → adjustUrgency e p u = "urgent") ∧
    (∀ p, adjustUrgency "frustrated" p "low" = "medium" ∧
      adjustUrgency "frustrated" p "medium" = "high" ∧
      adjustUrgency "frustrated" p "high" = "high" ∧
      adjustUrgency "frustrated" p "urgent" = "urgent") ∧
    (∀ description city cp sc slc pc gw comm freshId now,
      (runPipeline description city cp sc slc pc gw comm freshId now).1.urgency =
        adjustUrgency (sentimentProcess description sc).emotionLevel
          (sentimentProcess description sc).priorityRecommendation
          ((classifyNode (initState description city) cp).urgency)) := by
  exact ⟨adjustUrgency_angry, adjustUrgency_frustrated, runPipeline_urgency⟩

/-- Witness for C8 at concrete inputs. -/
theorem sentiment_urgency_coupling_witness :
    adjustUrgency "angry" "normal" "low" = "urgent" ∧
      adjustUrgency "frustrated" "normal" "low" = "medium" := by
  exact ⟨sentiment_urgency_coupling.1 "angry" "normal" "low" (Or.inl rfl),
    (sentiment_urgency_coupling.2.1 "normal").1⟩

/-! ## Emergency keyword routing (C4) -/

theorem keywordScan_fire (descL cityL : String)
    (h : containsAny fire_keywords descL = true) :
    keywordScan descL cityL = ⟨some "fire", some "urgent", some "safety"⟩ := by
  unfold keywordScan
  rw [if_pos h]

theorem keywordScan_medical (descL cityL : String)
    (hf : containsAny fire_keywords descL = false)
    (hm : containsAny medical_keywords descL = true) :
    keywordScan descL cityL = ⟨some "maharashtra_health", some "urgent", some "health"⟩ := by
  unfold keywordScan
  rw [hf]
  simp only [Bool.false_eq_true, if_false]
  rw [if_pos hm]

theorem classify_fire (description city : String) (p : ClassifyParsed)
    (h : containsAny fire_keywords (pyLower description) = true) :
    classify_with_llm description city p =
      ⟨"urgent", "safety", "fire", p.departmentName.getD "Maharashtra Fire Department"⟩ := by
  simp only [classify_with_llm, keywordScan_fire (pyLower description) (pyLower city) h]
  simp [validUrgencies, validCategories, deptKeys, deptDisplayName]

theorem classify_medical (description city : String) (p : ClassifyParsed)
    (hf : containsAny fire_keywords (pyLower description) = false)
    (hm : containsAny medical_keywords (pyLower description) = true) :
    classify_with_llm description city p =
      ⟨"urgent", "health", "maharashtra_health",
        p.departmentName.getD "Maharashtra Health Department"⟩ := by
  simp only [classify_with_llm, keywordScan_medical (pyLower description) (pyLower city) hf hm]
  simp [validUrgencies, validCategories, deptKeys, deptDisplayName]

/-- Every workflow-level fire keyword is also a classification-level fire
keyword, so a description free of the latter is free of the former. -/
theorem workflow_fire_of_fire (d : String)
    (h : containsAny fire_keywords d = false) :
    containsAny workflow_fire_keywords d = false := by
  unfold containsAny at h ⊢
  rw [List.any_eq_false] at h ⊢
  intro kw hkw
  have hsub : ∀ x ∈ workflow_fire_keywords, x ∈ fire_keywords := by decide
  exact h kw (hsub kw hkw)

theorem classifyNode_fire (description city : String) (cp : ClassifyParsed)
    (h : containsAny fire_keywords (pyLower description) = true) :
    (classifyNode (initState description city) cp).urgency = "urgent" ∧
    (classifyNode (initState description city) cp).department = "fire" ∧
    (classifyNode (initState description city) cp).structuredCategory = "safety" := by
  have hr := classify_fire description city cp h
  simp only [classifyNode, initState, hr]
  simp

theorem classifyNode_medical (description city : String) (cp : ClassifyParsed)
    (hm : containsAny medical_keywords (pyLower description) = true)
    (hf : containsAny fire_keywords (pyLower description) = false) :
    (classifyNode (initState description city) cp).urgency = "urgent" ∧
    (classifyNode (initState description city) cp).department = "maharashtra_health" := by
  have hr := classify_medical description city cp hf hm
  have hwf := workflow_fire_of_fire (pyLower description) hf
  simp only [classifyNode, initState, hr, hwf]
  simp

/-- C4 (amended): a description with a fire keyword ends the pipeline with
department "fire", urgency "urgent" and category "safety", whatever the
classification service returned; a description with a medical-emergency
keyword and *no fire keyword* (fire wins the first-match-wins emergency
chain) ends with the health department and urgency "urgent". -/
theorem emergency_keyword_routing (description city : String) (cp : ClassifyParsed)
    (sc : SentimentCall) (slc : SlaCall) (pc : PolicyCall)
    (gw : Except String Unit) (comm : CommCall) (freshId : String) (now : ℚ) :
    (containsAny fire_keywords (pyLower description) = true →
      (runPipeline description city cp sc slc pc gw comm freshId now).1.department = "fire" ∧
      (runPipeline description city cp sc slc pc gw comm freshId now).1.urgency = "urgent" ∧
      (runPipeline description city cp sc slc pc gw comm freshId now).1.structuredCategory
        = "safety") ∧
    (containsAny medical_keywords (pyLower description) = true ∧
        containsAny fire_keywords (pyLower description) = false →
      (runPipeline description city cp sc slc pc gw comm freshId now).1.department
          = "maharashtra_health" ∧
      (runPipeline description city cp sc slc pc gw comm freshId now).1.urgency = "urgent") := by
  constructor
  · intro h
    obtain ⟨hu, hd, hc⟩ := classifyNode_fire description city cp h
    refine ⟨?_, ?_, ?_⟩
    · rw [runPipeline_dept]; exact hd
    · rw [runPipeline_urgency, hu]; exact adjustUrgency_urgent_fixed _ _
    · rw [runPipeline_cat]; exact hc
  · intro ⟨hm, hf⟩
    obtain ⟨hu, hd⟩ := classifyNode_medical description city cp hm hf
    constructor
    · rw [runPipeline_dept]; exact hd
    · rw [runPipeline_urgency, hu]; exact adjustUrgency_urgent_fixed _ _

/-- Witness for C4 at concrete inputs: a fire description and a pure medical
description, with an adversarial classification response routing everything
to the postal department. -/
theorem emergency_keyword_routing_witness :
    ((runPipeline "Fire in Hinjewadi Pune" "Pune"
        ⟨some "low", some "other", some "central_post", none⟩
        .throws .throws .throws (.ok ()) .throws "cid" 0).1.department = "fire" ∧
      (runPipeline "Fire in Hinjewadi Pune" "Pune"
        ⟨some "low", some "other", some "central_post", none⟩
        .throws .throws .throws (.ok ()) .throws "cid" 0).1.urgency = "urgent" ∧
      (runPipeline "Fire in Hinjewadi Pune" "Pune"
        ⟨some "low", some "other", some "central_post", none⟩
        .throws .throws .throws (.ok ()) .throws "cid" 0).1.structuredCategory = "safety") ∧
    ((runPipeline "heart attack victim needs help" ""
        ⟨some "low", some "other", some "central_post", none⟩
        .throws .throws .throws (.ok ()) .throws "cid" 0).1.department = "maharashtra_health" ∧
      (runPipeline "heart attack victim needs help" ""
        ⟨some "low", some "other", some "central_post", none⟩
        .throws .throws .throws (.ok ()) .throws "cid" 0).1.urgency = "urgent") := by
  constructor
  · exact (emergency_keyword_routing "Fire in Hinjewadi Pune" "Pune"
      ⟨some "low", some "other", some "central_post", none⟩
      .throws .throws .throws (.ok ()) .throws "cid" 0).1 (by decide)
  · exact (emergency_keyword_routing "heart attack victim needs help" ""
      ⟨some "low", some "other", some "central_post", none⟩
      .throws .throws .throws (.ok ()) .throws "cid" 0).2 (by decide)

/-- C4 counterexample: the claim's medical half is false as universally
stated — a description matching both a medical keyword ("ambulance") and a
fire keyword ("smoke") is routed to the fire department, not the health
department, because fire is checked first. -/
theorem medical_routing_counterexample :
    containsAny medical_keywords (pyLower "Smoke inhalation, ambulance needed") = true ∧
    (runPipeline "Smoke inhalation, ambulance needed" ""
        ⟨none, none, none, none⟩ .throws .throws .throws (.ok ()) .throws
        "cid" 0).1.department = "fire" ∧
    ("fire" : String) ≠ "maharashtra_health" := by
  refine ⟨by decide, ?_, by decide⟩
  rw [runPipeline_dept]
  exact (classifyNode_fire "Smoke inhalation, ambulance needed" ""
    ⟨none, none, none, none⟩ (by decide)).2.1

/-! ## Anger overlay (C9) -/

/-- The invariant established by the anger overlay. -/
def AngryOut (r : SentimentOut) : Prop :=
  r.emotionLevel = "angry" ∧ 7/10 ≤ r.urgencyBoost ∧
    r.priorityRecommendation = "urgent" ∧ r.sentimentScore ≤ -8/10

theorem pymin_le_left (a b : ℚ) : pymin a b ≤ a := by
  unfold pymin; split_ifs with h
  · exact le_refl a
  · exact le_of_not_le h

theorem pymin_le_right (a b : ℚ) : pymin a b ≤ b := by
  unfold pymin; split_ifs with h
  · exact h
  · exact le_refl b

theorem le_pymax_left (a b : ℚ) : a ≤ pymax a b := by
  unfold pymax; split_ifs with h
  · exact h
  · exact le_refl a

theorem le_pymax_right (a b : ℚ) : b ≤ pymax a b := by
  unfold pymax; split_ifs with h
  · exact le_refl b
  · exact le_of_not_le h

theorem pymax_le {a b c : ℚ} (h1 : a ≤ c) (h2 : b ≤ c) : pymax a b ≤ c := by
  unfold pymax; split_ifs
  · exact h2
  · exact h1

theorem angerBlock_spec (descL : String) (r : SentimentOut)
    (h : containsAny critical_anger descL = true) :
    AngryOut (angerBlock descL r) := by
  unfold angerBlock AngryOut
  rw [h]
  exact ⟨rfl, le_pymax_left _ _, rfl, pymin_le_left _ _⟩

theorem frustrationBlock_keeps (descL : String) (r : SentimentOut)
    (h : AngryOut r) : AngryOut (frustrationBlock descL r) := by
  obtain ⟨he, hb, hp, hs⟩ := h
  unfold frustrationBlock AngryOut
  by_cases hc : containsAny high_frustration descL = true
  · rw [if_pos hc]
    refine ⟨?_, le_trans hb (le_pymax_right _ _), ?_,
      le_trans (pymin_le_right _ _) hs⟩
    · simp [he]
    · simp [hp]
  · rw [if_neg hc]
    exact ⟨he, hb, hp, hs⟩

theorem urgencyBlock_keeps (descL : String) (r : SentimentOut)
    (h : AngryOut r) : AngryOut (urgencyBlock descL r) := by
  obtain ⟨he, hb, hp, hs⟩ := h
  unfold urgencyBlock AngryOut
  by_cases hc : containsAny urgency_language descL = true
  · rw [if_pos hc]
    refine ⟨he, le_trans hb (le_pymax_right _ _), ?_, hs⟩
    simp [hp]
  · rw [if_neg hc]
    exact ⟨he, hb, hp, hs⟩

theorem positiveBlock_spec (descL : String) (r : SentimentOut)
    (h : AngryOut r) :
    (positiveBlock descL r).emotionLevel = "angry" ∧
    7/10 ≤ (positiveBlock descL r).urgencyBoost ∧
    (positiveBlock descL r).priorityRecommendation = "urgent" ∧
    (positiveBlock descL r).sentimentScore ≤ -3/10 ∧
    (containsAny positive_indicators descL = false →
      (positiveBlock descL r).sentimentScore ≤ -8/10) := by
  obtain ⟨he, hb, hp, hs⟩ := h
  unfold positiveBlock
  by_cases hc : containsAny positive_indicators descL = true
  · rw [if_pos hc]
    have hneg : r.sentimentScore < 0 := lt_of_le_of_lt hs (by norm_num)
    refine ⟨he, hb, hp, ?_, ?_⟩
    · simp only [if_pos hneg]
      exact pymax_le (by norm_num) (le_trans hs (by norm_num))
    · intro hfalse
      rw [hc] at hfalse
      exact absurd hfalse (by decide)
  · rw [if_neg hc]
    exact ⟨he, hb, hp, le_trans hs (by norm_num), fun _ => hs⟩

theorem contains_ne_empty (kws : List String) (d : String)
    (h : containsAny kws (pyLower d) = true) (hkw : containsAny kws "" = false) :
    ¬(d = "") := by
  intro hd
  subst hd
  have : pyLower "" = "" := by decide
  rw [this] at h
  rw [h] at hkw
  cases hkw

/-- C9 (amended): a description containing an explicit anger phrase always
yields emotion "angry", boost ≥ 0.7 and priority "urgent", whatever the
service returned; its sentiment score is forced to ≤ -0.8 *unless* the
description also contains a gratitude/politeness phrase, in which case the
positive-sentiment clamp (the one overlay allowed to soften a negative
score) lifts it to exactly the -0.3 floor, so only score ≤ -0.3 holds in
general. -/
theorem anger_overlay_spec (description : String) (p : SentimentParsed)
    (hang : containsAny critical_anger (pyLower description) = true) :
    (sentimentProcess description (.returns p)).emotionLevel = "angry" ∧
    7/10 ≤ (sentimentProcess description (.returns p)).urgencyBoost ∧
    (sentimentProcess description (.returns p)).priorityRecommendation = "urgent" ∧
    (sentimentProcess description (.returns p)).sentimentScore ≤ -3/10 ∧
    (containsAny positive_indicators (pyLower description) = false →
      (sentimentProcess description (.returns p)).sentimentScore ≤ -8/10) := by
  have hne : ¬(description = "") :=
    contains_ne_empty critical_anger description hang (by decide)
  unfold sentimentProcess
  rw [if_neg hne]
  simp only [apply_keyword_boosts]
  exact positiveBlock_spec _ _
    (urgencyBlock_keeps _ _ (frustrationBlock_keeps _ _
      (angerBlock_spec _ (validateSentiment p) hang)))

/-- Witness for C9 at a concrete angry description with a flat neutral
service response. -/
theorem anger_overlay_spec_witness :
    (sentimentProcess "I am furious about the garbage"
        (.returns ⟨some 0, some "calm", some 0, some "normal", []⟩)).emotionLevel
      = "angry" ∧
    (sentimentProcess "I am furious about the garbage"
        (.returns ⟨some 0, some "calm", some 0, some "normal", []⟩)).sentimentScore
      ≤ -8/10 := by
  have h := anger_overlay_spec "I am furious about the garbage"
    ⟨some 0, some "calm", some 0, some "normal", []⟩ (by decide)
  exact ⟨h.1, h.2.2.2.2 (by decide)⟩

/-- C9 counterexample: the claim's unconditional `score ≤ -0.8` is false —
a description containing both an anger phrase ("furious") and a politeness
phrase ("please") ends with score exactly -0.3, because the
positive-sentiment clamp runs after the anger overlay. -/
theorem anger_overlay_counterexample :
    containsAny critical_anger (pyLower "I am furious, please act") = true ∧
    (sentimentProcess "I am furious, please act"
        (.returns ⟨some 0, some "calm", some 0, some "normal", []⟩)).sentimentScore
      = -3/10 ∧
    ¬((-3/10 : ℚ) ≤ -8/10) := by
  refine ⟨by decide, ?_, by norm_num⟩
  with_unfolding_all decide

/-! ## Persistence (C7, C10) -/

/-- C10: every complaint record the pipeline's persistence step actually
creates has status "open" and escalation level "none", whatever the
classified urgency, the sentiment outcome or the accumulated errors. -/
theorem created_record_open_none (description city : String) (cp : ClassifyParsed)
    (sc : SentimentCall) (slc : SlaCall) (pc : PolicyCall)
    (gw : Except String Unit) (comm : CommCall) (freshId : String) (now : ℚ) :
    ((runPipeline description city cp sc slc pc gw comm freshId now).2.all
      (fun r => r.status == "open" && r.escalationLevel == "none")) = true := by
  unfold runPipeline persistNode
  cases gw <;> rfl

/-- C7 (amended): when the final persistence write throws, the orchestrator
does *not* abort — the exception is caught inside the persist node, recorded
in the error list, no record is created, and the pipeline still executes the
notification step; the state with accumulated errors is returned to the
caller rather than thrown. -/
theorem persistence_failure_not_aborting (description city : String)
    (cp : ClassifyParsed) (sc : SentimentCall) (slc : SlaCall) (pc : PolicyCall)
    (e : String) (comm : CommCall) (freshId : String) (now : ℚ) :
    (runPipeline description city cp sc slc pc (.error e) comm freshId now).2 = none ∧
    ("Persistence failed: " ++ e) ∈
      (runPipeline description city cp sc slc pc (.error e) comm freshId now).1.errors ∧
    (∀ m subj, comm = .returns m subj →
      (runPipeline description city cp sc slc pc (.error e) comm freshId now).1.citizenMessage
        = m) := by
  refine ⟨?_, ?_, ?_⟩
  · unfold runPipeline persistNode
    rfl
  · unfold runPipeline persistNode notifyNode
    cases comm <;> simp
  · intro m subj hc
    subst hc
    unfold runPipeline persistNode notifyNode
    rfl

/-- Witness for C7 at a concrete failing gateway. -/
theorem persistence_failure_not_aborting_witness :
    (runPipeline "Garbage problem" "" ⟨none, none, none, none⟩
        (.returns ⟨some 0, some "calm", some 0, some "normal", []⟩)
        (.returns (.parsed (some 48))) (.returns ⟨[], none, false, none, none⟩)
        (.error "db down") (.returns "msg" "subj") "cid1" 0).1.citizenMessage
      = "msg" := by
  exact (persistence_failure_not_aborting "Garbage problem" ""
    ⟨none, none, none, none⟩
    (.returns ⟨some 0, some "calm", some 0, some "normal", []⟩)
    (.returns (.parsed (some 48))) (.returns ⟨[], none, false, none, none⟩)
    "db down" (.returns "msg" "subj") "cid1" 0).2.2 "msg" "subj" rfl

/-- C7 counterexample: the claim that a persistence failure aborts the
pipeline run (surfaced as pipeline failure) is false — with a throwing
gateway the run still reaches the notify node (the citizen message is
produced), the only trace of the failure being an entry in the error
list, and no exception escapes `run`. -/
theorem persistence_failure_counterexample :
    (runPipeline "Garbage problem" "" ⟨none, none, none, none⟩
        (.returns ⟨some 0, some "calm", some 0, some "normal", []⟩)
        (.returns (.parsed (some 48))) (.returns ⟨[], none, false, none, none⟩)
        (.error "db down") (.returns "msg" "subj") "cid1" 0).1.citizenMessage
      = "msg" ∧
    (runPipeline "Garbage problem" "" ⟨none, none, none, none⟩
        (.returns ⟨some 0, some "calm", some 0, some "normal", []⟩)
        (.returns (.parsed (some 48))) (.returns ⟨[], none, false, none, none⟩)
        (.error "db down") (.returns "msg" "subj") "cid1" 0).1.errors
      = ["Persistence failed: db down"] ∧
    (runPipeline "Garbage problem" "" ⟨none, none, none, none⟩
        (.returns ⟨some 0, some "calm", some 0, some "normal", []⟩)
        (.returns (.parsed (some 48))) (.returns ⟨[], none, false, none, none⟩)
        (.error "db down") (.returns "msg" "subj") "cid1" 0).2 = none := by
  refine ⟨rfl, ?_, rfl⟩
  decide

/-! ## Monitoring-cycle lemmas (C1, C5) -/

theorem escalateOne_escalations (s : Store) (now : ℚ) (e : Nat × String) :
    (escalateOne s now e).escalations = s.escalations ++ [⟨e.1, e.2⟩] := rfl

theorem escalateNode_escalations (es : List (Nat × String)) (s : Store) (now : ℚ) :
    (escalateNode s now es).escalations =
      s.escalations ++ es.map (fun e => (⟨e.1, e.2⟩ : EscRecord)) := by
  induction es generalizing s with
  | nil => simp [escalateNode]
  | cons e es ih =>
    show (escalateNode (escalateOne s now e) now es).escalations = _
    rw [ih, escalateOne_escalations]
    simp

theorem followupStep_cid (now : ℚ) (c : MComplaint) :
    (followupStep now c).cid = c.cid := by
  unfold followupStep; split_ifs <;> rfl

theorem followupStep_status (now : ℚ) (c : MComplaint) :
    (followupStep now c).status = c.status := by
  unfold followupStep; split_ifs <;> rfl

theorem followupStep_deadline (now : ℚ) (c : MComplaint) :
    (followupStep now c).slaDeadline = c.slaDeadline := by
  unfold followupStep; split_ifs <;> rfl

theorem followupStep_level (now : ℚ) (c : MComplaint) :
    (followupStep now c).escalationLevel = c.escalationLevel := by
  unfold followupStep; split_ifs <;> rfl

theorem followupStep_urgency (now : ℚ) (c : MComplaint) :
    (followupStep now c).urgency = c.urgency := by
  unfold followupStep; split_ifs <;> rfl

theorem followupStep_category (now : ℚ) (c : MComplaint) :
    (followupStep now c).structuredCategory = c.structuredCategory := by
  unfold followupStep; split_ifs <;> rfl

theorem followupStep_description (now : ℚ) (c : MComplaint) :
    (followupStep now c).description = c.description := by
  unfold followupStep; split_ifs <;> rfl

theorem followupStep_department (now : ℚ) (c : MComplaint) :
    (followupStep now c).responsibleDepartment = c.responsibleDepartment := by
  unfold followupStep; split_ifs <;> rfl

theorem followupNode_escalations (s : Store) (now : ℚ) :
    (followupNode s now).escalations = s.escalations := rfl

theorem lookup_followup (s : Store) (now : ℚ) (cid : Nat) :
    lookupComplaint (followupNode s now) cid =
      (lookupComplaint s cid).map (followupStep now) := by
  unfold lookupComplaint followupNode
  rw [List.find?_map]
  have hfun : ((fun c => decide (c.cid = cid)) ∘ followupStep now) =
      (fun c : MComplaint => decide (c.cid = cid)) := by
    funext c
    simp [Function.comp, followupStep_cid]
  rw [hfun]

theorem svcInputOf_followup (s : Store) (now : ℚ) (c : MComplaint) (h : ℚ) :
    svcInputOf (followupNode s now) (followupStep now c) h = svcInputOf s c h := by
  unfold svcInputOf
  rw [followupNode_escalations, followupStep_cid, followupStep_category,
    followupStep_description, followupStep_department, followupStep_urgency]

theorem hoursOverdueOf_followup (now : ℚ) (c : MComplaint) :
    hoursOverdueOf (followupStep now c) now = hoursOverdueOf c now := by
  unfold hoursOverdueOf
  rw [followupStep_deadline]

/-- What membership in the escalation-decision list implies, over the store
the check node actually reads. -/
theorem checkEscalations_mem (s : Store) (cands : List Nat) (now : ℚ)
    (svc : SvcIn → SvcOut) (e : Nat × String)
    (h : e ∈ checkEscalations s cands now svc) :
    ∃ c, lookupComplaint s e.1 = some c ∧ now > c.slaDeadline ∧
      (svc (svcInputOf s c (hoursOverdueOf c now))).escalationNeeded = true ∧
      (svc (svcInputOf s c (hoursOverdueOf c now))).escalationLevel ≠ "none" ∧
      (svc (svcInputOf s c (hoursOverdueOf c now))).escalationLevel ≠ c.escalationLevel ∧
      e.2 = (svc (svcInputOf s c (hoursOverdueOf c now))).escalationLevel := by
  unfold checkEscalations at h
  obtain ⟨cid, _, hf⟩ := List.mem_filterMap.mp h
  cases hlook : lookupComplaint s cid with
  | none => rw [hlook] at hf; cases hf
  | some c =>
    rw [hlook, Option.some_bind] at hf
    by_cases hbr : now > c.slaDeadline
    · rw [if_pos hbr] at hf
      unfold escalationAgentProcess at hf
      rw [hlook, Option.some_bind] at hf
      cases hagent : escalate_with_llm c.escalationLevel
          (svc (svcInputOf s c (hoursOverdueOf c now))) with
      | none => rw [hagent] at hf; cases hf
      | some lvl =>
        rw [hagent] at hf
        simp only [Option.map_some'] at hf
        injection hf with hf
        subst hf
        unfold escalate_with_llm at hagent
        by_cases hguard : (svc (svcInputOf s c (hoursOverdueOf c now))).escalationNeeded = false
            ∨ (svc (svcInputOf s c (hoursOverdueOf c now))).escalationLevel = "none"
            ∨ (svc (svcInputOf s c (hoursOverdueOf c now))).escalationLevel = c.escalationLevel
        · rw [if_pos hguard] at hagent; cases hagent
        · rw [if_neg hguard] at hagent
          push_neg at hguard
          obtain ⟨hneed, hnone, hcur⟩ := hguard
          injection hagent with hlvl
          refine ⟨c, hlook, hbr, ?_, hnone, hcur, hlvl.symm⟩
          cases hval : (svc (svcInputOf s c (hoursOverdueOf c now))).escalationNeeded
          · exact absurd hval hneed
          · rfl
    · rw [if_neg hbr] at hf; cases hf

/-- The escalation rows a monitoring cycle appends, characterised: a row is
created only for a complaint that is breaching (now strictly past its
deadline) and for which the decision service reported
`escalation_needed = true` with a proposed level that is neither "none" nor
the complaint's current level — and the row carries the service's level
verbatim, with no threshold, monotonicity or `level_4` check. -/
theorem runCycle_escalations_spec (s : Store) (now : ℚ) (svc : SvcIn → SvcOut) :
    ∃ recs, (runCycle s now svc).escalations = s.escalations ++ recs ∧
      ∀ r ∈ recs, ∃ c, c ∈ s.complaints ∧ c.cid = r.complaintId ∧
        now > c.slaDeadline ∧
        (svc (svcInputOf s c (hoursOverdueOf c now))).escalationNeeded = true ∧
        (svc (svcInputOf s c (hoursOverdueOf c now))).escalationLevel ≠ "none" ∧
        (svc (svcInputOf s c (hoursOverdueOf c now))).escalationLevel ≠ c.escalationLevel ∧
        r.escalationLevel = (svc (svcInputOf s c (hoursOverdueOf c now))).escalationLevel := by
  refine ⟨(checkEscalations (followupNode s now)
      (breachingIds s now ++ staleIds s now) now svc).map
        (fun e => (⟨e.1, e.2⟩ : EscRecord)), ?_, ?_⟩
  · show (escalateNode (followupNode s now) now _).escalations = _
    rw [escalateNode_escalations, followupNode_escalations]
  · intro r hr
    obtain ⟨e, he, hre⟩ := List.mem_map.mp hr
    obtain ⟨c', hlook, hbr, hneed, hnone, hcur, hlvl⟩ :=
      checkEscalations_mem (followupNode s now) _ now svc e he
    rw [lookup_followup] at hlook
    cases hcs : lookupComplaint s e.1 with
    | none => rw [hcs] at hlook; cases hlook
    | some c =>
      rw [hcs] at hlook
      have hc' : c' = followupStep now c := by
        have := Option.some.injEq .. ▸ hlook
        exact this.symm
      subst hc'
      refine ⟨c, List.mem_of_find?_eq_some hcs, ?_, ?_, ?_, ?_, ?_, ?_⟩
      · have hp := List.find?_some hcs
        have : c.cid = e.1 := by simpa using hp
        rw [this, ← hre]
      · rw [followupStep_deadline] at hbr; exact hbr
      · rw [svcInputOf_followup, hoursOverdueOf_followup] at hneed; exact hneed
      · rw [svcInputOf_followup, hoursOverdueOf_followup] at hnone; exact hnone
      · rw [svcInputOf_followup, hoursOverdueOf_followup, followupStep_level] at hcur
        exact hcur
      · rw [svcInputOf_followup, hoursOverdueOf_followup] at hlvl
        rw [← hre]
        exact hlvl

/-- C1 (amended): in every monitoring cycle, an Escalation record is created
for a complaint only when the complaint is breaching (now strictly past its
SLA deadline) and the decision service reported `escalation_needed = true`
with a proposed level that is neither "none" nor the complaint's current
level; the record carries the service's proposed level verbatim.  The
hours-overdue thresholds (urgent 50%, high 24h, medium 48h, low 72h), the
strictly-greater requirement and the level_4 terminal rule live only in the
service's prompt text: the cycle never enforces them, so the level sequence
is non-decreasing and bounded by level_4 only if the service complies. -/
theorem escalation_record_guard (s : Store) (now : ℚ) (svc : SvcIn → SvcOut) :
    ∃ recs, (runCycle s now svc).escalations = s.escalations ++ recs ∧
      ∀ r ∈ recs, ∃ c, c ∈ s.complaints ∧ c.cid = r.complaintId ∧
        now > c.slaDeadline ∧
        (svc (svcInputOf s c (hoursOverdueOf c now))).escalationNeeded = true ∧
        (svc (svcInputOf s c (hoursOverdueOf c now))).escalationLevel ≠ "none" ∧
        (svc (svcInputOf s c (hoursOverdueOf c now))).escalationLevel ≠ c.escalationLevel ∧
        r.escalationLevel = (svc (svcInputOf s c (hoursOverdueOf c now))).escalationLevel :=
  runCycle_escalations_spec s now svc

def guardCxComplaint : MComplaint :=
  ⟨1, "open", "high", "level_2", 0, 0, "other", "road damage", "municipal", 0⟩

def guardCxStore : Store := ⟨[guardCxComplaint], []⟩

/-- A decision service that always proposes a downgrade to level_1. -/
def guardCxSvc : SvcIn → SvcOut := fun _ => ⟨true, "level_1"⟩

/-- C1 counterexample: a complaint at level_2, urgency "high", only 1 hour
overdue (below the claimed 24-hour threshold), for which the service
proposes level_1: the cycle *does* create an Escalation record, with a level
strictly below the current one — refuting both the threshold condition and
the strictly-greater condition, and with it the non-decreasing level
consequence. -/
theorem escalation_guard_counterexample :
    (runCycle guardCxStore 1 guardCxSvc).escalations =
      [⟨1, "level_1"⟩] ∧
    levelRank "level_1" < levelRank "level_2" ∧
    hoursOverdueOf guardCxComplaint 1 = 1 ∧ (1 : ℚ) < 24 := by
  refine ⟨?_, by decide, ?_, by norm_num⟩
  · with_unfolding_all decide
  · with_unfolding_all decide

/-- C5 (amended): a monitoring cycle appends zero Escalation records
provided the decision service answers, for every complaint, either "no
escalation", level "none", or exactly the complaint's current level — the
cycle's only idempotence guard.  Re-running immediately after a first cycle
is therefore a no-op *only under this assumption about the service*: the
first cycle increments the past-escalation count the service is prompted
with, so a service whose proposal depends on that count can lawfully return
a higher level on the second run and produce a new record with no time
elapsed. -/
theorem cycle_noop_when_service_repeats (s : Store) (now : ℚ)
    (svc : SvcIn → SvcOut)
    (h : ∀ c ∈ s.complaints,
      (svc (svcInputOf s c (hoursOverdueOf c now))).escalationNeeded = false ∨
      (svc (svcInputOf s c (hoursOverdueOf c now))).escalationLevel = "none" ∨
      (svc (svcInputOf s c (hoursOverdueOf c now))).escalationLevel
        = c.escalationLevel) :
    (runCycle s now svc).escalations = s.escalations := by
  obtain ⟨recs, heq, hall⟩ := runCycle_escalations_spec s now svc
  have hnil : recs = [] := by
    rw [List.eq_nil_iff_forall_not_mem]
    intro r hr
    obtain ⟨c, hc, _, _, hneed, hnone, hcur, _⟩ := hall r hr
    rcases h c hc with h1 | h1 | h1
    · rw [hneed] at h1; cases h1
    · exact hnone h1
    · exact hcur h1
  rw [heq, hnil, List.append_nil]

def noopCxStore : Store :=
  ⟨[⟨1, "escalated", "high", "level_1", 0, 1, "other", "road damage", "municipal", 0⟩],
   [⟨1, "level_1"⟩]⟩

/-- A decision service that re-proposes the already-current level_1. -/
def noopCxSvc : SvcIn → SvcOut := fun _ => ⟨true, "level_1"⟩

/-- Witness for C5: an already-escalated, still-breaching complaint whose
service proposal equals its current level — re-running adds no record. -/
theorem cycle_noop_when_service_repeats_witness :
    (runCycle noopCxStore 1 noopCxSvc).escalations = noopCxStore.escalations :=
  cycle_noop_when_service_repeats noopCxStore 1 noopCxSvc
    (by with_unfolding_all decide)

def rerunCxStore : Store :=
  ⟨[⟨1, "open", "high", "none", 0, 0, "other", "road damage", "municipal", 0⟩], []⟩

/-- A decision service that is a pure function of its prompt inputs but
depends on the past-escalation count: level_1 for a first offence, level_2
afterwards. -/
def rerunCxSvc : SvcIn → SvcOut := fun i =>
  if i.pastEscalations = 0 then ⟨true, "level_1"⟩ else ⟨true, "level_2"⟩

/-- C5 counterexample: with the same clock reading and the same
deterministic decision service, the second immediately-repeated cycle
creates one *additional* Escalation record, because the first cycle changed
the past-escalation count that feeds the service's prompt. -/
theorem rerun_cycle_counterexample :
    (runCycle rerunCxStore 1 rerunCxSvc).escalations.length = 1 ∧
    (runCycle (runCycle rerunCxStore 1 rerunCxSvc) 1 rerunCxSvc).escalations.length
      = 2 := by
  constructor
  · with_unfolding_all decide
  · with_unfolding_all decide

end Grievance
